import Mathlib

/-!
Verification of the fitness-tracker calculation utility (`homework.py`).

The program is embedded shallowly: Python floats become rationals (`ℚ`),
Python floor division `//` becomes `Int.floor` of the exact quotient cast
back to `ℚ`, the `NotImplementedError` raised by the base class becomes
`Option.none`, and the dispatcher's `ValueError` becomes `Except.error`.
The class hierarchy (base `Training` plus the three concrete variants,
with dynamic dispatch on the runtime type) becomes a sum type with one
case per runtime class, and each method becomes a function matching on
that type exactly as Python attribute lookup would.
-/

/-- Summary record of one workout (dataclass `InfoMessage`). -/
structure InfoMessage where
  training_type : String
  duration : ℚ
  distance : ℚ
  speed : ℚ
  calories : ℚ
deriving Repr, DecidableEq

/-- ASCII digit character for a single decimal digit. -/
def digitChar (d : ℕ) : Char := Char.ofNat (48 + d)

/-- Three-digit zero-padded rendering of `n % 1000`, as Python's `:.3f`
fractional part. -/
def pad3 (n : ℕ) : String :=
  String.mk [digitChar (n / 100 % 10), digitChar (n / 10 % 10), digitChar (n % 10)]

/-- Round a rational to the nearest integer, ties to even, as Python's
float formatting does. -/
def pyRound (q : ℚ) : ℤ :=
  let f := ⌊q⌋
  let r := q - (f : ℚ)
  if r < (1 : ℚ)/2 then f
  else if (1 : ℚ)/2 < r then f + 1
  else if f % 2 = 0 then f else f + 1

/-- Python's fixed-point format `f-string :.3f`: exactly three digits after
the decimal point. -/
def formatFixed3 (q : ℚ) : String :=
  let n := pyRound (q * 1000)
  let sign := if n < 0 then "-" else ""
  sign ++ toString (n.natAbs / 1000) ++ "." ++ pad3 (n.natAbs % 1000)

/-- Method `InfoMessage.get_message`: the fixed report template of the
source (Russian labels), each numeric field rendered with `:.3f`. -/
def InfoMessage.get_message (m : InfoMessage) : String :=
  "Тип тренировки: " ++ m.training_type ++ "; " ++
  "Длительность: " ++ formatFixed3 m.duration ++ " ч.; " ++
  "Дистанция: " ++ formatFixed3 m.distance ++ " км; " ++
  "Ср. скорость: " ++ formatFixed3 m.speed ++ " км/ч; " ++
  "Потрачено ккал: " ++ formatFixed3 m.calories ++ "."

/-- The runtime class of a workout object: the base class `Training` or
one of its three subclasses, with the fields set by each constructor. -/
inductive Training where
  | base (action duration weight : ℚ)
  | running (action duration weight : ℚ)
  | sportsWalking (action duration weight height : ℚ)
  | swimming (action duration weight length_pool count_pool : ℚ)
deriving Repr, DecidableEq

/-- Field `self.action` (set by `Training.__init__`, shared by all classes). -/
def Training.action : Training → ℚ
  | .base a _ _ => a
  | .running a _ _ => a
  | .sportsWalking a _ _ _ => a
  | .swimming a _ _ _ _ => a

/-- Field `self.duration_h`. -/
def Training.duration_h : Training → ℚ
  | .base _ d _ => d
  | .running _ d _ => d
  | .sportsWalking _ d _ _ => d
  | .swimming _ d _ _ _ => d

/-- Field `self.weight_kg`. -/
def Training.weight_kg : Training → ℚ
  | .base _ _ w => w
  | .running _ _ w => w
  | .sportsWalking _ _ w _ => w
  | .swimming _ _ w _ _ => w

/-- Class attribute `M_IN_KM = 1000`. -/
def M_IN_KM : ℚ := 1000

/-- Class attribute `MIN_IN_HR = 60`. -/
def MIN_IN_HR : ℚ := 60

/-- Class attribute `LEN_STEP`: `0.65` on `Training`, overridden to `1.38`
on `Swimming`; looked up through the runtime class. -/
def Training.LEN_STEP : Training → ℚ
  | .swimming _ _ _ _ _ => 138/100
  | _ => 65/100

/-- Class attribute `Running.SPEED_MAIN_CALORIE_COEFFICIENT = 18`. -/
def Running.SPEED_MAIN_CALORIE_COEFFICIENT : ℚ := 18

/-- Class attribute `Running.SPEED_MEAN_CALORIE_DEDUCTED = 20`. -/
def Running.SPEED_MEAN_CALORIE_DEDUCTED : ℚ := 20

/-- Class attribute `SportsWalking.LESS_IMPACT_WEIGHT_CALORIE = 0.035`. -/
def SportsWalking.LESS_IMPACT_WEIGHT_CALORIE : ℚ := 35/1000

/-- Class attribute `SportsWalking.MAIN_INFLUENCE_WEIGHT_CALORIE = 0.029`. -/
def SportsWalking.MAIN_INFLUENCE_WEIGHT_CALORIE : ℚ := 29/1000

/-- Class attribute `SportsWalking.EXPONENT = 2`. -/
def SportsWalking.EXPONENT : ℕ := 2

/-- Class attribute `Swimming.ACTUAL_EFFECT_SWIM_WEIGHT = 2`. -/
def Swimming.ACTUAL_EFFECT_SWIM_WEIGHT : ℚ := 2

/-- Class attribute `Swimming.APPROACH_MAX_SPEED = 1.1`. -/
def Swimming.APPROACH_MAX_SPEED : ℚ := 11/10

/-- Method `Training.get_distance`: `action * LEN_STEP / M_IN_KM`
(not overridden by any subclass). -/
def Training.get_distance (t : Training) : ℚ :=
  t.action * t.LEN_STEP / M_IN_KM

/-- Method `get_mean_speed`: `get_distance() / duration_h` on the base
class, overridden by `Swimming` with the pool-based formula. -/
def Training.get_mean_speed (t : Training) : ℚ :=
  match t with
  | .swimming _ d _ l c => l * c / M_IN_KM / d
  | _ => t.get_distance / t.duration_h

/-- Method `get_spent_calories`: raises `NotImplementedError` (`none`) on
the base class; each subclass supplies its own formula. Python floor
division `//` is `Int.floor` of the quotient. -/
def Training.get_spent_calories (t : Training) : Option ℚ :=
  match t with
  | .base _ _ _ => none
  | .running _ d w =>
      some ((Running.SPEED_MAIN_CALORIE_COEFFICIENT * t.get_mean_speed
              - Running.SPEED_MEAN_CALORIE_DEDUCTED)
            * w / M_IN_KM * d * MIN_IN_HR)
  | .sportsWalking _ d w h =>
      some ((SportsWalking.LESS_IMPACT_WEIGHT_CALORIE * w
              + (⌊t.get_mean_speed ^ SportsWalking.EXPONENT / h⌋ : ℚ)
                * SportsWalking.MAIN_INFLUENCE_WEIGHT_CALORIE * w)
            * d * MIN_IN_HR)
  | .swimming _ _ w _ _ =>
      some ((t.get_mean_speed + Swimming.APPROACH_MAX_SPEED)
            * Swimming.ACTUAL_EFFECT_SWIM_WEIGHT * w)

/-- Python's `type(self).__name__` for each runtime class. -/
def Training.typeName : Training → String
  | .base _ _ _ => "Training"
  | .running _ _ _ => "Running"
  | .sportsWalking _ _ _ _ => "SportsWalking"
  | .swimming _ _ _ _ _ => "Swimming"

/-- Method `Training.show_training_info`: builds the `InfoMessage` from the
computed metrics; `none` when `get_spent_calories` raises. -/
def Training.show_training_info (t : Training) : Option InfoMessage :=
  (t.get_spent_calories).map fun cal =>
    InfoMessage.mk t.typeName t.duration_h t.get_distance t.get_mean_speed cal

/-- The `ValueError` message raised by `read_package` on an unknown code. -/
def UNRECOGNIZED_MSG : String :=
  "Трекер пока не может считать данный тип тренировки"

/-- Function `read_package`: looks the workout code up in the dispatch
dict and applies the selected constructor to the unpacked data list; a
code outside the dict raises `ValueError`, a data list whose length does
not match the constructor's arity raises `TypeError`. -/
def read_package (workout_type : String) (data : List ℚ) : Except String Training :=
  if workout_type = "RUN" ∨ workout_type = "WLK" ∨ workout_type = "SWM" then
    match workout_type, data with
    | "RUN", [a, d, w] => Except.ok (Training.running a d w)
    | "WLK", [a, d, w, h] => Except.ok (Training.sportsWalking a d w h)
    | "SWM", [a, d, w, l, c] => Except.ok (Training.swimming a d w l c)
    | _, _ => Except.error "TypeError: constructor arity mismatch"
  else
    Except.error UNRECOGNIZED_MSG

/-- C1: Running calories are `(18 * v - 20) * w / 1000 * d * 60` with mean
speed `v = a * 0.65 / 1000 / d`, and dispatching `("RUN", [15000, 1, 75])`
yields a summary with workout type `"Running"` whose distance and mean
speed both format to `"9.750"`. -/
theorem running_calories_formula :
    (∀ a d w : ℚ, (Training.running a d w).get_spent_calories =
      some ((18 * (a * (65/100) / 1000 / d) - 20) * w / 1000 * d * 60)) ∧
    ∃ t : Training, read_package "RUN" [15000, 1, 75] = Except.ok t ∧
      ∃ m : InfoMessage, t.show_training_info = some m ∧
        m.training_type = "Running" ∧
        formatFixed3 m.distance = "9.750" ∧ formatFixed3 m.speed = "9.750" := by
  constructor
  · intro a d w
    rfl
  · refine ⟨Training.running 15000 1 75, rfl, ?_⟩
    refine ⟨_, rfl, rfl, ?_, ?_⟩
    · have hd : (Training.running (15000:ℚ) 1 75).get_distance = 39/4 := by
        simp only [Training.get_distance, Training.action, Training.LEN_STEP, M_IN_KM]
        norm_num
      rw [hd]
      have h : pyRound ((39:ℚ)/4 * 1000) = 9750 := by simp only [pyRound]; norm_num
      simp only [formatFixed3, h]
      decide
    · have hs : (Training.running (15000:ℚ) 1 75).get_mean_speed = 39/4 := by
        simp only [Training.get_mean_speed, Training.get_distance, Training.action,
          Training.duration_h, Training.LEN_STEP, M_IN_KM]
        norm_num
      rw [hs]
      have h : pyRound ((39:ℚ)/4 * 1000) = 9750 := by simp only [pyRound]; norm_num
      simp only [formatFixed3, h]
      decide

/-- C2: SportsWalking calories are
`(0.035 * w + (v^2 // h) * 0.029 * w) * d * 60` with `v` the base
distance-over-duration mean speed and `//` floor division. -/
theorem sports_walking_calories_formula (a d w h : ℚ) (hh : h ≠ 0) :
    (Training.sportsWalking a d w h).get_spent_calories =
      some (((35/1000) * w
        + ((⌊(a * (65/100) / 1000 / d) ^ 2 / h⌋ : ℤ) : ℚ) * (29/1000) * w)
          * d * 60) := by
  rfl

/-- Witness for C2 at the driver's WLK package `(9000, 1, 75, 180)`. -/
theorem sports_walking_calories_formula_witness :
    (180:ℚ) ≠ 0 ∧
    (Training.sportsWalking 9000 1 75 180).get_spent_calories =
      some (((35/1000) * 75
        + ((⌊((9000:ℚ) * (65/100) / 1000 / 1) ^ 2 / 180⌋ : ℤ) : ℚ) * (29/1000) * 75)
          * 1 * 60) :=
  ⟨by norm_num, sports_walking_calories_formula 9000 1 75 180 (by norm_num)⟩

/-- C3: Swimming overrides the mean speed with
`length_pool * count_pool / 1000 / duration`, and dispatching
`("SWM", [720, 1, 80, 25, 40])` yields mean speed formatting to `"1.000"`. -/
theorem swimming_mean_speed_formula :
    (∀ a d w l c : ℚ, d ≠ 0 →
      (Training.swimming a d w l c).get_mean_speed = l * c / 1000 / d) ∧
    ∃ t : Training, read_package "SWM" [720, 1, 80, 25, 40] = Except.ok t ∧
      formatFixed3 t.get_mean_speed = "1.000" := by
  constructor
  · intro a d w l c _
    rfl
  · refine ⟨Training.swimming 720 1 80 25 40, rfl, ?_⟩
    have hs : (Training.swimming (720:ℚ) 1 80 25 40).get_mean_speed = 1 := by
      simp only [Training.get_mean_speed, M_IN_KM]
      norm_num
    rw [hs]
    have h : pyRound ((1:ℚ) * 1000) = 1000 := by simp only [pyRound]; norm_num
    simp only [formatFixed3, h]
    decide

/-- Witness for C3: the universal part applied at the SWM driver package. -/
theorem swimming_mean_speed_formula_witness :
    (1:ℚ) ≠ 0 ∧
    (Training.swimming 720 1 80 25 40).get_mean_speed = 25 * 40 / 1000 / 1 :=
  ⟨by norm_num, swimming_mean_speed_formula.1 720 1 80 25 40 (by norm_num)⟩

/-- C4: Swimming calories are `(get_mean_speed() + 1.1) * 2 * w`, and
dispatching `("SWM", [720, 1, 80, 25, 40])` yields calories formatting to
`"336.000"`. -/
theorem swimming_calories_formula :
    (∀ a d w l c : ℚ, (Training.swimming a d w l c).get_spent_calories =
      some (((Training.swimming a d w l c).get_mean_speed + 11/10) * 2 * w)) ∧
    ∃ t : Training, read_package "SWM" [720, 1, 80, 25, 40] = Except.ok t ∧
      ∃ m : InfoMessage, t.show_training_info = some m ∧
        formatFixed3 m.calories = "336.000" := by
  constructor
  · intro a d w l c
    rfl
  · refine ⟨Training.swimming 720 1 80 25 40, rfl, ?_⟩
    refine ⟨_, rfl, ?_⟩
    have hc : ((Training.swimming (720:ℚ) 1 80 25 40).get_mean_speed
        + Swimming.APPROACH_MAX_SPEED) * Swimming.ACTUAL_EFFECT_SWIM_WEIGHT * 80 = 336 := by
      simp only [Training.get_mean_speed, M_IN_KM,
        Swimming.APPROACH_MAX_SPEED, Swimming.ACTUAL_EFFECT_SWIM_WEIGHT]
      norm_num
    simp only [Training.get_spent_calories]
    rw [hc]
    have h : pyRound ((336:ℚ) * 1000) = 336000 := by simp only [pyRound]; norm_num
    simp only [formatFixed3, h]
    decide

/-- C5: distance is `action * LEN_STEP / 1000` with step length `0.65` for
Running and SportsWalking and `1.38` for Swimming. -/
theorem get_distance_formula :
    ∀ a d w h l c : ℚ,
      (Training.running a d w).get_distance = a * (65/100) / 1000 ∧
      (Training.sportsWalking a d w h).get_distance = a * (65/100) / 1000 ∧
      (Training.swimming a d w l c).get_distance = a * (138/100) / 1000 := by
  intro a d w h l c
  exact ⟨rfl, rfl, rfl⟩

/-- C6: `read_package` fails with the unrecognized-workout-type message on
every code outside RUN/WLK/SWM, and maps each recognized code to the
corresponding variant constructed positionally from the data list. -/
theorem read_package_dispatch :
    (∀ (code : String) (data : List ℚ), code ≠ "RUN" → code ≠ "WLK" → code ≠ "SWM" →
      read_package code data = Except.error UNRECOGNIZED_MSG) ∧
    (∀ a d w : ℚ, read_package "RUN" [a, d, w] = Except.ok (Training.running a d w)) ∧
    (∀ a d w h : ℚ,
      read_package "WLK" [a, d, w, h] = Except.ok (Training.sportsWalking a d w h)) ∧
    (∀ a d w l c : ℚ,
      read_package "SWM" [a, d, w, l, c] = Except.ok (Training.swimming a d w l c)) := by
  refine ⟨?_, fun a d w => rfl, fun a d w h => rfl, fun a d w l c => rfl⟩
  intro code data h1 h2 h3
  simp only [read_package]
  rw [if_neg (by simp [h1, h2, h3])]

/-- Witness for C6: the unknown code `"XYZ"` is rejected with the
user-facing message. -/
theorem read_package_dispatch_witness :
    ("XYZ" ≠ "RUN" ∧ "XYZ" ≠ "WLK" ∧ "XYZ" ≠ "SWM") ∧
    read_package "XYZ" [] = Except.error UNRECOGNIZED_MSG :=
  ⟨⟨by decide, by decide, by decide⟩,
   read_package_dispatch.1 "XYZ" [] (by decide) (by decide) (by decide)⟩

/-- C7 counterexample: the formatter does not produce the English template
claimed by the spec; at a concrete summary the output differs from the
English rendering (the source template has Russian labels). -/
theorem get_message_not_english_template :
    (InfoMessage.mk "Running" 1 (39/4) (39/4) (2799/4)).get_message ≠
      "Workout type: Running; Duration: 1.000 h; Distance: 9.750 km; Mean speed: 9.750 km/h; Calories burned: 699.750." := by
  have h1 : pyRound ((1:ℚ) * 1000) = 1000 := by simp only [pyRound]; norm_num
  have h2 : pyRound ((39:ℚ)/4 * 1000) = 9750 := by simp only [pyRound]; norm_num
  have h3 : pyRound ((2799:ℚ)/4 * 1000) = 699750 := by simp only [pyRound]; norm_num
  simp only [InfoMessage.get_message, formatFixed3, h1, h2, h3]
  decide

/-- C7 amended: the formatter produces the source's fixed template (Russian
labels) verbatim, and every numeric field is rendered by `formatFixed3`,
which always emits exactly three digits after the decimal point. -/
theorem get_message_template :
    (∀ m : InfoMessage, m.get_message =
      "Тип тренировки: " ++ m.training_type ++ "; Длительность: "
        ++ formatFixed3 m.duration ++ " ч.; Дистанция: "
        ++ formatFixed3 m.distance ++ " км; Ср. скорость: "
        ++ formatFixed3 m.speed ++ " км/ч; Потрачено ккал: "
        ++ formatFixed3 m.calories ++ ".") ∧
    (∀ q : ℚ, ∃ (s : String) (n : ℕ), n < 1000 ∧
      formatFixed3 q = s ++ "." ++ pad3 n ∧ (pad3 n).length = 3) := by
  constructor
  · intro m
    have e1 : ("; Длительность: " : String) = "; " ++ "Длительность: " := by decide
    have e2 : (" ч.; Дистанция: " : String) = " ч.; " ++ "Дистанция: " := by decide
    have e3 : (" км; Ср. скорость: " : String) = " км; " ++ "Ср. скорость: " := by decide
    have e4 : (" км/ч; Потрачено ккал: " : String)
        = " км/ч; " ++ "Потрачено ккал: " := by decide
    simp only [InfoMessage.get_message, e1, e2, e3, e4, String.append_assoc]
  · intro q
    refine ⟨(if pyRound (q * 1000) < 0 then "-" else "")
        ++ toString ((pyRound (q * 1000)).natAbs / 1000),
      (pyRound (q * 1000)).natAbs % 1000, Nat.mod_lt _ (by norm_num), ?_, rfl⟩
    simp only [formatFixed3, String.append_assoc]

/-- C8: calorie computation on the base class fails with the
not-implemented error, and no record returned by `read_package` ever
triggers it. -/
theorem base_not_implemented :
    (∀ a d w : ℚ, (Training.base a d w).get_spent_calories = none) ∧
    (∀ (code : String) (data : List ℚ) (t : Training),
      read_package code data = Except.ok t → t.get_spent_calories ≠ none) := by
  constructor
  · intro a d w
    rfl
  · intro code data t ht
    simp only [read_package] at ht
    split at ht
    · split at ht
      all_goals first
        | (injection ht with h2; subst h2; simp [Training.get_spent_calories])
        | exact Except.noConfusion ht
    · exact Except.noConfusion ht

/-- Witness for C8: the RUN driver package dispatches to a record whose
calorie computation succeeds. -/
theorem base_not_implemented_witness :
    read_package "RUN" [15000, 1, 75] = Except.ok (Training.running 15000 1 75) ∧
    (Training.running (15000:ℚ) 1 75).get_spent_calories ≠ none :=
  ⟨rfl, base_not_implemented.2 "RUN" [15000, 1, 75] (Training.running 15000 1 75) rfl⟩

/-- C9: the swimming mean speed depends only on pool length, lap count and
duration, never on action count or weight. -/
theorem swimming_speed_depends_only_on_pool :
    ∀ l c d a1 a2 w1 w2 : ℚ,
      (Training.swimming a1 d w1 l c).get_mean_speed =
        (Training.swimming a2 d w2 l c).get_mean_speed := by
  intro l c d a1 a2 w1 w2
  rfl

/-- C10: swimming distance is `action * 1.38 / 1000`, independent of the
pool fields, and there are swimming inputs (the driver's own SWM package)
where the reported mean speed differs from distance divided by duration. -/
theorem swimming_distance_speed_inconsistent :
    (∀ a d w l c : ℚ,
      (Training.swimming a d w l c).get_distance = a * (138/100) / 1000) ∧
    (∀ a d w l1 c1 l2 c2 : ℚ,
      (Training.swimming a d w l1 c1).get_distance =
        (Training.swimming a d w l2 c2).get_distance) ∧
    (∃ a d w l c : ℚ,
      (Training.swimming a d w l c).get_mean_speed ≠
        (Training.swimming a d w l c).get_distance
          / (Training.swimming a d w l c).duration_h) := by
  refine ⟨fun a d w l c => rfl, fun a d w l1 c1 l2 c2 => rfl,
    720, 1, 80, 25, 40, ?_⟩
  simp only [Training.get_mean_speed, Training.get_distance, Training.action,
    Training.duration_h, Training.LEN_STEP, M_IN_KM]
  norm_num
